import Mathlib

/-!
Verification of the vllm-orchestrator-gateway request/response pipeline.

The development shallowly embeds the gateway's data model (src/api.rs, src/config.rs)
and the pure parts of its request handling (src/main.rs): detector resolution,
configuration validation, fallback substitution for streaming and non-streaming
replies, SSE data-line extraction, and header forwarding.

Modelling conventions:
- `serde_json::Value` is embedded as the inductive `Json`; JSON numbers are carried
  as `Int` (no claim computes with fractional values, and `f64` fields such as
  `DetectionResult.score` are likewise carried as an opaque `Int` stand-in with
  decidable equality).
- Rust `HashMap<String, Value>` is embedded as the lookup function
  `String → Option Json`; `insert` overwrites, as in Rust.
- Fallible serde decoding is embedded as `Option`-returning `fromJson` functions
  that follow serde's derive semantics: non-`Option` fields are required,
  `Option` fields default to `None` when absent or `null`, unknown fields are
  ignored, and a struct only decodes from a JSON object.
-/

/-- Embedding of `serde_json::Value`. Numbers are carried as `Int`. -/
inductive Json where
  | null : Json
  | bool : Bool → Json
  | num : Int → Json
  | str : String → Json
  | arr : List Json → Json
  | obj : List (String × Json) → Json
  deriving Repr, Inhabited

/-- Field lookup in a JSON object (first binding wins; the configs and replies
in this development never carry duplicate keys). Non-objects have no fields. -/
def Json.getField : Json → String → Option Json
  | .obj fields, k => (fields.find? (fun p => p.1 == k)).map (fun p => p.2)
  | _, _ => none

/-! ## Data model (src/api.rs) -/

/-- `OrchestratorDetector` (src/api.rs lines 4-8): the two
`HashMap<String, serde_json::Value>` maps are embedded by their lookup
functions; `insert` overwrites, as Rust's `HashMap::insert` does. -/
structure OrchestratorDetector where
  input : String → Option Json
  output : String → Option Json

/-- `GenerationMessage` (src/api.rs lines 10-17). -/
structure GenerationMessage where
  content : String
  refusal : Option String
  role : String
  tool_calls : Option Json
  audio : Option Json
  deriving Repr

/-- `GenerationMessage::new` (src/api.rs lines 19-29). -/
def GenerationMessage.new (message : String) : GenerationMessage :=
  { content := message, refusal := none, role := "assistant",
    tool_calls := none, audio := none }

/-- `GenerationChoice` (src/api.rs lines 31-37). -/
structure GenerationChoice where
  finish_reason : String
  index : Nat
  message : GenerationMessage
  logprobs : Option Json
  deriving Repr

/-- `DetectionResult` (src/api.rs lines 39-48). `start` is a raw
`serde_json::Value`; `score: f64` is carried as an opaque `Int` stand-in
(no claim computes with scores). `end` is renamed `end_` (Lean keyword). -/
structure DetectionResult where
  start : Json
  end_ : Nat
  text : String
  detection_type : String
  detection : String
  detector_id : String
  score : Int
  deriving Repr

/-- `InputDetection` (src/api.rs lines 50-54). -/
structure InputDetection where
  message_index : Nat
  results : Option (List DetectionResult)
  deriving Repr

/-- `OutputDetection` (src/api.rs lines 56-60). -/
structure OutputDetection where
  choice_index : Nat
  results : Option (List DetectionResult)
  deriving Repr

/-- `Detections` (src/api.rs lines 62-66). -/
structure Detections where
  input : Option (List InputDetection)
  output : Option (List OutputDetection)
  deriving Repr

/-- `OrchestratorResponse` (src/api.rs lines 68-80). `warnings` carries each
`HashMap<String, String>` as its list of bindings. -/
structure OrchestratorResponse where
  id : String
  choices : List GenerationChoice
  created : Nat
  model : String
  service_tier : Option String
  system_fingerprint : Option String
  object : Option String
  usage : Json
  detections : Option Detections
  warnings : Option (List (List (String × String)))
  deriving Repr

/-- `StreamingDelta` (src/api.rs lines 83-88). -/
structure StreamingDelta where
  content : Option String
  role : Option String
  tool_calls : Option Json
  deriving Repr

/-- `StreamingChoice` (src/api.rs lines 90-97). -/
structure StreamingChoice where
  index : Nat
  delta : StreamingDelta
  logprobs : Option Json
  finish_reason : Option String
  stop_reason : Option String
  deriving Repr

/-- `StreamingResponse` (src/api.rs lines 99-109). -/
structure StreamingResponse where
  id : String
  object : String
  created : Nat
  model : String
  choices : List StreamingChoice
  usage : Option Json
  detections : Option Detections
  warnings : Option (List (List (String × String)))
  deriving Repr

/-! ## Serde decoding model

`#[derive(Deserialize)]` semantics for the reply shapes: a struct decodes only
from a JSON object; non-`Option` fields are required; `Option` fields decode
`null`/absent to `none`; unknown fields are ignored (no `deny_unknown_fields`). -/

/-- Decode a required struct field. -/
def reqField (j : Json) (k : String) (p : Json → Option α) : Option α :=
  (j.getField k).bind p

/-- Decode an `Option<T>` struct field: absent or `null` is `none`. -/
def optField (j : Json) (k : String) (p : Json → Option α) : Option (Option α) :=
  match j.getField k with
  | none => some none
  | some .null => some none
  | some v => (p v).map some

/-- serde `String`. -/
def Json.asString : Json → Option String
  | .str s => some s
  | _ => none

/-- serde unsigned integer of width `w` bits (u16/u32/u64): in-range number. -/
def Json.asUInt (w : Nat) : Json → Option Nat
  | .num n => if 0 ≤ n ∧ n < (2 : Int) ^ w then some n.toNat else none
  | _ => none

/-- serde `f64` under the `Int` stand-in for numbers. -/
def Json.asNum : Json → Option Int
  | .num n => some n
  | _ => none

/-- serde `Vec<T>`. -/
def Json.asArrayOf (p : Json → Option α) : Json → Option (List α)
  | .arr xs => xs.mapM p
  | _ => none

/-- serde `HashMap<String, String>`: a JSON object whose values are strings. -/
def Json.asStringMap : Json → Option (List (String × String))
  | .obj fields => fields.mapM (fun p => (Json.asString p.2).map (fun s => (p.1, s)))
  | _ => none

/-- Guard that `j` is a JSON object (serde structs do not decode from other shapes). -/
def Json.guardObj : Json → Option Unit
  | .obj _ => some ()
  | _ => none

/-- serde decode of `StreamingDelta`. -/
def StreamingDelta.fromJson (j : Json) : Option StreamingDelta := do
  let _ ← j.guardObj
  let content ← optField j "content" Json.asString
  let role ← optField j "role" Json.asString
  let tool_calls ← optField j "tool_calls" some
  pure { content, role, tool_calls }

/-- serde decode of `DetectionResult`. -/
def DetectionResult.fromJson (j : Json) : Option DetectionResult := do
  let _ ← j.guardObj
  let start ← j.getField "start"
  let end_ ← reqField j "end" (Json.asUInt 32)
  let text ← reqField j "text" Json.asString
  let detection_type ← reqField j "detection_type" Json.asString
  let detection ← reqField j "detection" Json.asString
  let detector_id ← reqField j "detector_id" Json.asString
  let score ← reqField j "score" Json.asNum
  pure { start, end_, text, detection_type, detection, detector_id, score }

/-- serde decode of `InputDetection`. -/
def InputDetection.fromJson (j : Json) : Option InputDetection := do
  let _ ← j.guardObj
  let message_index ← reqField j "message_index" (Json.asUInt 16)
  let results ← optField j "results" (Json.asArrayOf DetectionResult.fromJson)
  pure { message_index, results }

/-- serde decode of `OutputDetection`. -/
def OutputDetection.fromJson (j : Json) : Option OutputDetection := do
  let _ ← j.guardObj
  let choice_index ← reqField j "choice_index" (Json.asUInt 32)
  let results ← optField j "results" (Json.asArrayOf DetectionResult.fromJson)
  pure { choice_index, results }

/-- serde decode of `Detections`. -/
def Detections.fromJson (j : Json) : Option Detections := do
  let _ ← j.guardObj
  let input ← optField j "input" (Json.asArrayOf InputDetection.fromJson)
  let output ← optField j "output" (Json.asArrayOf OutputDetection.fromJson)
  pure { input, output }

/-- serde decode of `StreamingChoice`. -/
def StreamingChoice.fromJson (j : Json) : Option StreamingChoice := do
  let _ ← j.guardObj
  let index ← reqField j "index" (Json.asUInt 32)
  let delta ← reqField j "delta" StreamingDelta.fromJson
  let logprobs ← optField j "logprobs" some
  let finish_reason ← optField j "finish_reason" Json.asString
  let stop_reason ← optField j "stop_reason" Json.asString
  pure { index, delta, logprobs, finish_reason, stop_reason }

/-- serde decode of `StreamingResponse`: this is the
`serde_json::from_str::<StreamingResponse>` shape check of src/main.rs line 306,
on the already-parsed JSON document. -/
def StreamingResponse.fromJson (j : Json) : Option StreamingResponse := do
  let _ ← j.guardObj
  let id ← reqField j "id" Json.asString
  let object ← reqField j "object" Json.asString
  let created ← reqField j "created" (Json.asUInt 64)
  let model ← reqField j "model" Json.asString
  let choices ← reqField j "choices" (Json.asArrayOf StreamingChoice.fromJson)
  let usage ← optField j "usage" some
  let detections ← optField j "detections" Detections.fromJson
  let warnings ← optField j "warnings" (Json.asArrayOf Json.asStringMap)
  pure { id, object, created, model, choices, usage, detections, warnings }

/-- serde decode of `GenerationMessage`. -/
def GenerationMessage.fromJson (j : Json) : Option GenerationMessage := do
  let _ ← j.guardObj
  let content ← reqField j "content" Json.asString
  let refusal ← optField j "refusal" Json.asString
  let role ← reqField j "role" Json.asString
  let tool_calls ← optField j "tool_calls" some
  let audio ← optField j "audio" some
  pure { content, refusal, role, tool_calls, audio }

/-- serde decode of `GenerationChoice`. -/
def GenerationChoice.fromJson (j : Json) : Option GenerationChoice := do
  let _ ← j.guardObj
  let finish_reason ← reqField j "finish_reason" Json.asString
  let index ← reqField j "index" (Json.asUInt 32)
  let message ← reqField j "message" GenerationMessage.fromJson
  let logprobs ← optField j "logprobs" some
  pure { finish_reason, index, message, logprobs }

/-- serde decode of `OrchestratorResponse`: this is the
`serde_json::from_value::<OrchestratorResponse>` shape check of
src/main.rs line 475, on the already-parsed JSON document. -/
def OrchestratorResponse.fromJson (j : Json) : Option OrchestratorResponse := do
  let _ ← j.guardObj
  let id ← reqField j "id" Json.asString
  let choices ← reqField j "choices" (Json.asArrayOf GenerationChoice.fromJson)
  let created ← reqField j "created" (Json.asUInt 64)
  let model ← reqField j "model" Json.asString
  let service_tier ← optField j "service_tier" Json.asString
  let system_fingerprint ← optField j "system_fingerprint" Json.asString
  let object ← optField j "object" Json.asString
  let usage ← j.getField "usage"
  let detections ← optField j "detections" Detections.fromJson
  let warnings ← optField j "warnings" (Json.asArrayOf Json.asStringMap)
  pure { id, choices, created, model, service_tier, system_fingerprint, object,
         usage, detections, warnings }

/-! ## Serde serialization model (`#[derive(Serialize)]`)

Fields are emitted in declaration order; `Option::None` is emitted as `null`
(no `skip_serializing_if` attributes anywhere in src/api.rs). -/

/-- Serialize an optional value, `None` as `null`. -/
def optJson (f : α → Json) : Option α → Json
  | some a => f a
  | none => .null

def StreamingDelta.toJson (d : StreamingDelta) : Json :=
  .obj [("content", optJson .str d.content), ("role", optJson .str d.role),
        ("tool_calls", d.tool_calls.getD .null)]

def DetectionResult.toJson (r : DetectionResult) : Json :=
  .obj [("start", r.start), ("end", .num r.end_), ("text", .str r.text),
        ("detection_type", .str r.detection_type), ("detection", .str r.detection),
        ("detector_id", .str r.detector_id), ("score", .num r.score)]

def InputDetection.toJson (d : InputDetection) : Json :=
  .obj [("message_index", .num d.message_index),
        ("results", optJson (fun rs => .arr (rs.map DetectionResult.toJson)) d.results)]

def OutputDetection.toJson (d : OutputDetection) : Json :=
  .obj [("choice_index", .num d.choice_index),
        ("results", optJson (fun rs => .arr (rs.map DetectionResult.toJson)) d.results)]

def Detections.toJson (d : Detections) : Json :=
  .obj [("input", optJson (fun xs => .arr (xs.map InputDetection.toJson)) d.input),
        ("output", optJson (fun xs => .arr (xs.map OutputDetection.toJson)) d.output)]

def StreamingChoice.toJson (c : StreamingChoice) : Json :=
  .obj [("index", .num c.index), ("delta", c.delta.toJson),
        ("logprobs", c.logprobs.getD .null),
        ("finish_reason", optJson .str c.finish_reason),
        ("stop_reason", optJson .str c.stop_reason)]

def stringMapToJson (m : List (String × String)) : Json :=
  .obj (m.map (fun p => (p.1, .str p.2)))

/-- Serialization of `StreamingResponse`: the `serde_json::to_string` of
src/main.rs line 321, modelled up to the JSON document it renders. -/
def StreamingResponse.toJson (r : StreamingResponse) : Json :=
  .obj [("id", .str r.id), ("object", .str r.object), ("created", .num r.created),
        ("model", .str r.model), ("choices", .arr (r.choices.map StreamingChoice.toJson)),
        ("usage", r.usage.getD .null),
        ("detections", optJson Detections.toJson r.detections),
        ("warnings", optJson (fun ws => .arr (ws.map stringMapToJson)) r.warnings)]

/-! ## Configuration (src/config.rs) -/

/-- `OrchestratorConfig` (src/config.rs lines 14-18). -/
structure OrchestratorConfig where
  host : String
  port : Option Nat
  deriving Repr

/-- `DetectorConfig` (src/config.rs lines 29-37). -/
structure DetectorConfig where
  name : String
  server : Option String
  input : Bool
  output : Bool
  detector_params : Option Json
  deriving Repr

/-- `DetectorConfig::with_server_default` (src/config.rs lines 39-46). -/
def DetectorConfig.with_server_default (d : DetectorConfig) : DetectorConfig :=
  if d.server.isNone then { d with server := some d.name } else d

/-- `RouteConfig` (src/config.rs lines 48-53). -/
structure RouteConfig where
  name : String
  detectors : List String
  fallback_message : Option String
  deriving Repr

/-- `GatewayConfig` (src/config.rs lines 6-12). -/
structure GatewayConfig where
  orchestrator : OrchestratorConfig
  detectors : List DetectorConfig
  routes : List RouteConfig
  deriving Repr

/-- The detector normalization applied by `read_config` (src/config.rs line 60):
every detector's `server` is defaulted to its name before validation runs. -/
def normalizeDetectors (cfg : GatewayConfig) : GatewayConfig :=
  { cfg with detectors := cfg.detectors.map DetectorConfig.with_server_default }

/-- Issue text pushed for an unknown detector name (src/config.rs lines 75-78). -/
def unknownDetectorMsg (detector routeName : String) : String :=
  "- could not find detector \x27" ++ detector ++ "\x27 in route \x27" ++ routeName ++ "\x27"

/-- Issue text pushed for a duplicate input server (src/config.rs lines 91-94). -/
def dupInputServerMsg (routeName server : String) : String :=
  "- route \x27" ++ routeName ++ "\x27 contains more than one input detector with server \x27"
    ++ server ++ "\x27"

/-- Issue text pushed for a duplicate output server (src/config.rs lines 97-100). -/
def dupOutputServerMsg (routeName server : String) : String :=
  "- route \x27" ++ routeName ++ "\x27 contains more than one output detector with server \x27"
    ++ server ++ "\x27"

/-- The unknown-name pass of `validate_registered_detectors`
(src/config.rs lines 72-80), for one route. -/
def routeUnknownIssues (detector_names : List String) (route : RouteConfig) : List String :=
  route.detectors.foldl
    (fun issues detector =>
      if detector_names.contains detector then issues
      else issues ++ [unknownDetectorMsg detector route.name])
    []

/-- The duplicate-server pass of `validate_registered_detectors`
(src/config.rs lines 82-104), for one route.  The fold state is
`(seen_input, seen_output, issues)`; the `HashSet`s are carried as lists
queried by `contains`.  Note that, exactly as in the source, the whole
duplicate check (including the `seen_output` insertion and test) sits inside
`if detector_cfg.input`, and `detector_cfg.server.as_ref().unwrap()` is
carried as `Option.getD ""` — in the program it is only reached on configs
normalized by `read_config`, where `server` is always `some`. -/
def routeDupIssues (cfg : GatewayConfig) (route : RouteConfig) : List String :=
  (route.detectors.foldl
    (fun (st : List String × List String × List String) detector_name =>
      match cfg.detectors.find? (fun d => d.name == detector_name) with
      | some detector_cfg =>
        if detector_cfg.input then
          let server := detector_cfg.server.getD ""
          let issues := if st.1.contains server
            then st.2.2 ++ [dupInputServerMsg route.name server] else st.2.2
          let issues := if st.2.1.contains server
            then issues ++ [dupOutputServerMsg route.name server] else issues
          (server :: st.1, server :: st.2.1, issues)
        else st
      | none => st)
    ([], [], [])).2.2

/-- `validate_registered_detectors` (src/config.rs lines 64-109), returning the
collected issue list; the source panics (the process refuses to start) iff this
list is non-empty. -/
def validate_registered_detectors (gateway_cfg : GatewayConfig) : List String :=
  let detector_names := gateway_cfg.detectors.map (fun d => d.name)
  gateway_cfg.routes.foldl
    (fun issues route =>
      issues ++ routeUnknownIssues detector_names route ++ routeDupIssues gateway_cfg route)
    []

/-- Startup validation accepts a configuration iff no issue is collected. -/
def validationPasses (cfg : GatewayConfig) : Prop :=
  validate_registered_detectors cfg = []

/-! ## Detector resolution (src/main.rs lines 32-56) -/

/-- Empty detector map. -/
def emptyDetectorMap : String → Option Json := fun _ => none

/-- `HashMap::insert`: overwrite the binding at `key`. -/
def mapInsert (m : String → Option Json) (key : String) (v : Json) :
    String → Option Json :=
  fun k => if k = key then some v else m k

/-- One iteration of the `for detector in detector_config` loop of
`get_orchestrator_detectors` (src/main.rs lines 39-50). -/
def resolveDetectorStep (detectors : List String) (acc : OrchestratorDetector)
    (detector : DetectorConfig) : OrchestratorDetector :=
  if detectors.contains detector.name && detector.detector_params.isSome then
    match detector.detector_params with
    | some detector_params =>
      let key := detector.server.getD detector.name
      let acc := if detector.input
        then { acc with input := mapInsert acc.input key detector_params } else acc
      if detector.output
        then { acc with output := mapInsert acc.output key detector_params } else acc
    | none => acc
  else acc

/-- `get_orchestrator_detectors` (src/main.rs lines 32-56). -/
def get_orchestrator_detectors (detectors : List String)
    (detector_config : List DetectorConfig) : OrchestratorDetector :=
  detector_config.foldl (resolveDetectorStep detectors)
    { input := emptyDetectorMap, output := emptyDetectorMap }

/-! ## Fallback policy (src/main.rs) -/

/-- `check_payload_detections` (src/main.rs lines 138-152): the fallback choice
is synthesized whenever the route has a fallback message and `detections` is
`Some(_)` — the contents of the `Detections` value are never inspected. -/
def check_payload_detections (detections : Option Detections)
    (route_fallback_message : Option String) : Option GenerationChoice :=
  match route_fallback_message, detections with
  | some fallback_message, some _ =>
    some { message := GenerationMessage.new fallback_message,
           finish_reason := "stop", index := 0, logprobs := none }
  | _, _ => none

/-- The non-streaming fallback substitution of `handle_non_streaming_generation`
(src/main.rs lines 242-250): on a detection, `choices` is replaced by the
single synthesized choice; otherwise the reply is returned as received. -/
def applyNonStreamingFallback (route_fallback_message : Option String)
    (resp : OrchestratorResponse) : OrchestratorResponse :=
  match check_payload_detections resp.detections route_fallback_message with
  | some message => { resp with choices := [message] }
  | none => resp

/-- The streaming fallback substitution of `handle_streaming_generation`
(src/main.rs lines 307-318): when the route has a fallback message, the parsed
chunk carries `detections`, and `choices` is non-empty, `choices[0].delta` is
overwritten with the fallback delta and `choices[0].finish_reason` with
`"stop"`; in every other case the chunk is left untouched. -/
def applyStreamingFallback (route_fallback_message : Option String)
    (r : StreamingResponse) : StreamingResponse :=
  match route_fallback_message with
  | some fallback_message =>
    if r.detections.isSome then
      match r.choices with
      | [] => r
      | c :: rest =>
        { r with choices :=
            { c with delta := { content := some fallback_message,
                                role := some "assistant", tool_calls := none },
                     finish_reason := some "stop" } :: rest }
    else r
  | none => r

/-- The data payload of one outgoing SSE event: either a re-serialized JSON
document (`Event::default().data(json_str)`, src/main.rs line 322) or a raw
string forwarded unchanged (src/main.rs line 330). -/
inductive EventData where
  | jsonData : Json → EventData
  | raw : String → EventData
  deriving Repr

/-- The per-chunk body of the SSE relay (src/main.rs lines 302-331), for a
successfully read chunk.  `parsed` is the result of
`serde_json::from_str::<StreamingResponse>(&chunk)`: for a chunk whose text is
a JSON document this is `StreamingResponse.fromJson` of that document, and for
text that is not JSON at all (e.g. the empty string) it is `none`.  The result
is `some` event — the relay emits exactly one event per upstream chunk, in
every branch of the source `match`; `none` (a dropped chunk) never occurs. -/
def relayChunkEvent (parsed : Option StreamingResponse) (chunk : String)
    (route_fallback_message : Option String) : Option EventData :=
  match parsed with
  | some streaming_response =>
    some (.jsonData (StreamingResponse.toJson
      (applyStreamingFallback route_fallback_message streaming_response)))
  | none => some (.raw chunk)

/-! ## Non-streaming upstream decode (src/main.rs lines 456-476) -/

/-- Outcome of `orchestrator_post_request` after the response is received:
`ok` — decoded reply returned to the handler; `err` — an `anyhow` error
returned to the handler, surfaced to the client as a 500 with the text as
body (src/main.rs lines 252-256); `crash` — a process-level panic
(`Result::expect`), which never reaches the client. -/
inductive UpstreamResult where
  | ok : OrchestratorResponse → UpstreamResult
  | err : String → UpstreamResult
  | crash : String → UpstreamResult
  deriving Repr

/-- The status/body handling of `orchestrator_post_request`
(src/main.rs lines 456-476).  `statusIsSuccess` is `status.is_success()`;
`body` is `some j` when the body text parses as the JSON document `j`
(src/main.rs line 473, `serde_json::from_str`) and `none` when it is not valid
JSON, in which case the `?` operator returns the error to the handler.  A body
that is valid JSON but does not decode into `OrchestratorResponse` hits
`.expect("unexpected json response from request")` (line 475) and panics. -/
def orchestratorPostResult (statusIsSuccess : Bool) (body : Option Json) :
    UpstreamResult :=
  if !statusIsSuccess then .err "orchestrator returned error status"
  else
    match body with
    | none => .err "body is not valid json"
    | some j =>
      match OrchestratorResponse.fromJson j with
      | some resp => .ok resp
      | none => .crash "unexpected json response from request"

/-! ## SSE data-line extraction (src/main.rs lines 517-546)

Rust string operations are embedded at the character-list level
(`String.data`), keeping every function structurally recursive. -/

/-- Split a character list at `'\n'`, keeping a (possibly empty) final
segment — the raw split underlying Rust's `str::lines`. -/
def splitNewlineAux : List Char → List Char → List (List Char)
  | [], cur => [cur.reverse]
  | '\n' :: rest, cur => cur.reverse :: splitNewlineAux rest []
  | c :: rest, cur => splitNewlineAux rest (c :: cur)

def splitNewline (cs : List Char) : List (List Char) :=
  splitNewlineAux cs []

/-- Rust's `str::lines`: split at `'\n'`, drop the empty segment a trailing
newline produces, and strip one trailing `'\r'` from each line. -/
def rustLines (cs : List Char) : List (List Char) :=
  let parts := splitNewline cs
  let parts := match parts.getLast? with
    | some [] => parts.dropLast
    | _ => parts
  parts.map (fun l => match l.getLast? with
    | some '\r' => l.dropLast
    | _ => l)

/-- Rust's `str::starts_with` on character lists. -/
def charsStartWith : List Char → List Char → Bool
  | [], _ => true
  | _ :: _, [] => false
  | p :: ps, c :: cs => p == c && charsStartWith ps cs

/-- Newline-join of a list of lines (`Vec::join("\n")`). -/
def joinNewline : List (List Char) → List Char
  | [] => []
  | [l] => l
  | l :: rest => l ++ '\n' :: joinNewline rest

/-- The `for line in lines` loop of `orchestrator_streaming_request`
(src/main.rs lines 529-536): collect the payloads of `data: ` lines,
dropping the `[DONE]` sentinel. -/
def extractDataLines (chunk : String) : List (List Char) :=
  (rustLines chunk.data).foldl
    (fun data_lines line =>
      if charsStartWith "data: ".data line then
        let data := line.drop 6
        if data = "[DONE]".data then data_lines else data_lines ++ [data]
      else data_lines)
    []

/-- The candidate document produced for one upstream chunk
(src/main.rs lines 526-542): the newline-join of the collected `data:`
payloads, or the empty string when there are none. -/
def extractData (chunk : String) : String :=
  let data_lines := extractDataLines chunk
  if data_lines.isEmpty then "" else String.mk (joinNewline data_lines)

/-! ## Header forwarding (src/main.rs lines 420-433 and 490-502)

The two loops are textually identical; one embedding serves both. -/

/-- Rust's `char::to_ascii_lowercase`. -/
def asciiLowerChar (c : Char) : Char :=
  if 'A' ≤ c && c ≤ 'Z' then Char.ofNat (c.toNat + 32) else c

/-- Rust's `str::to_ascii_lowercase`. -/
def asciiLower (s : String) : String :=
  String.mk (s.data.map asciiLowerChar)

/-- The condition under which a client header crosses the boundary, as the
spec words it: its name case-insensitively equals `authorization`, or
case-insensitively starts with `x-forwarded`. -/
def isForwardedHeader (name : String) : Bool :=
  let l := asciiLower name
  l == "authorization" || charsStartWith "x-forwarded".data l.data

/-- One iteration of the header-forwarding loop (src/main.rs lines 423-433):
two independent `if`s, each appending the header to the outbound request. -/
def forwardHeaderStep (req : List (String × String)) (h : String × String) :
    List (String × String) :=
  let name_str := asciiLower h.1
  let req := if name_str == "authorization" then req ++ [h] else req
  if charsStartWith "x-forwarded".data name_str.data then req ++ [h] else req

/-- The outbound header set: the headers attached to the orchestrator request,
in iteration order. -/
def forwardHeaders (headers : List (String × String)) : List (String × String) :=
  headers.foldl forwardHeaderStep []

/-- The outbound orchestrator request as observable by the orchestrator:
URL, JSON body, and forwarded headers. -/
structure OutboundRequest where
  url : String
  body : Json
  headers : List (String × String)
  deriving Repr

/-- Construction of the outbound request (src/main.rs lines 420-433/490-502):
`client.post(url).json(&payload)` plus the forwarded headers. -/
def buildOutboundRequest (url : String) (payload : Json)
    (headers : List (String × String)) : OutboundRequest :=
  { url := url, body := payload, headers := forwardHeaders headers }

/-! ## Spec-side definitions used to state the claims -/

/-- The server key of a detector, as the spec words it: `server_key` defaults
to the detector's name. -/
def serverKey (d : DetectorConfig) : String :=
  d.server.getD d.name

/-- A detector the resolver selects for the input map: named in the route's
list, non-null params, `input` flag set. -/
def selectedInput (detectors : List String) (d : DetectorConfig) : Bool :=
  detectors.contains d.name && d.detector_params.isSome && d.input

/-- A detector the resolver selects for the output map. -/
def selectedOutput (detectors : List String) (d : DetectorConfig) : Bool :=
  detectors.contains d.name && d.detector_params.isSome && d.output

/-- The load-time invariant of the spec, phrased on a detector list: no two
detectors selected for a role share a `server_key` (later entries checked
against each earlier one). -/
def distinctServerKeys (sel : DetectorConfig → Bool) : List DetectorConfig → Bool
  | [] => true
  | d :: rest =>
    (!sel d || rest.all (fun e => !sel e || serverKey e != serverKey d))
      && distinctServerKeys sel rest

/-- The streaming rewrite as the spec describes it: `choices[0].delta` becomes
`{content: fallback_message, role: "assistant", tool_calls: null}` and
`choices[0].finish_reason` becomes `"stop"`; every other entry is untouched. -/
def rewriteFirstChoice (fallback_message : String) :
    List StreamingChoice → List StreamingChoice
  | [] => []
  | c :: rest =>
    { c with delta := { content := some fallback_message, role := some "assistant",
                        tool_calls := none },
             finish_reason := some "stop" } :: rest

/-- The candidate document as the spec describes it: the newline-join of the
payloads of the chunk's lines of the form `data: <payload>`, excluding lines
equal to `data: [DONE]`. -/
def specCandidate (chunk : String) : String :=
  String.mk (joinNewline
    (((rustLines chunk.data).filter
        (fun l => charsStartWith "data: ".data l && l != "data: [DONE]".data)).map
      (List.drop 6)))

/-! ## Concrete inputs -/

/-- The configuration of the repository's own test
`test_validate_multiple_same_server_output_detectors`
(src/config.rs lines 173-204): two output-only detectors sharing server
`server-a`, both listed by one route.  The test is `#[should_panic]`. -/
def cfgDuplicateOutputServers : GatewayConfig :=
  { orchestrator := { host := "localhost", port := some 1234 },
    detectors :=
      [{ name := "regex-1", server := some "server-a", input := false,
         output := true, detector_params := none },
       { name := "regex-2", server := some "server-a", input := false,
         output := true, detector_params := none }],
    routes := [{ name := "route1", detectors := ["regex-1", "regex-2"],
                 fallback_message := none }] }

/-- Same shape with the `input` flags set instead — the sibling test
`test_validate_multiple_same_server_input_detectors` (src/config.rs 140-171). -/
def cfgDuplicateInputServers : GatewayConfig :=
  { orchestrator := { host := "localhost", port := some 1234 },
    detectors :=
      [{ name := "regex-1", server := some "server-a", input := true,
         output := false, detector_params := none },
       { name := "regex-2", server := some "server-a", input := true,
         output := false, detector_params := none }],
    routes := [{ name := "route1", detectors := ["regex-1", "regex-2"],
                 fallback_message := none }] }

/-- An input detector with params `"v1"` under server key `s`. -/
def dInputV1 : DetectorConfig :=
  { name := "a", server := some "s", input := true, output := false,
    detector_params := some (.str "v1") }

/-- A second input detector with params `"v2"` under the same server key `s`. -/
def dInputV2 : DetectorConfig :=
  { name := "b", server := some "s", input := true, output := false,
    detector_params := some (.str "v2") }

/-- Two input detectors colliding on server key `s`. -/
def cfgColliding : List DetectorConfig := [dInputV1, dInputV2]

/-- Two detectors sharing a name but carrying distinct server keys and roles
(the shape of the spec's Scenario E). -/
def cfgDistinctKeys : List DetectorConfig :=
  [{ name := "a", server := some "s1", input := true, output := false,
     detector_params := some (.str "v1") },
   { name := "a", server := some "s2", input := false, output := true,
     detector_params := some (.str "v2") }]

/-- The JSON document of the spec's Scenario C chunk, exactly as written there
(with `results` instantiated to the empty list): it has no `id`, `object`,
`created` or `model` field. -/
def scenarioCJson : Json :=
  .obj [("choices", .arr [.obj [("index", .num 0),
            ("delta", .obj [("content", .str "hi")])]]),
        ("detections", .obj [("output", .arr [.obj [("choice_index", .num 0),
            ("results", .arr [])]])])]

/-- The raw text of the Scenario C chunk's `data:` payload. -/
def scenarioCRaw : String :=
  "\x7b\"choices\":[\x7b\"index\":0,\"delta\":\x7b\"content\":\"hi\"\x7d\x7d],\"detections\":\x7b\"output\":[\x7b\"choice_index\":0,\"results\":[]\x7d]\x7d\x7d"

/-- Scenario C's chunk augmented with the fields `StreamingResponse` requires. -/
def scenarioCFullJson : Json :=
  .obj [("id", .str "c1"), ("object", .str "chat.completion.chunk"),
        ("created", .num 1), ("model", .str "m"),
        ("choices", .arr [.obj [("index", .num 0),
            ("delta", .obj [("content", .str "hi")])]]),
        ("detections", .obj [("output", .arr [.obj [("choice_index", .num 0),
            ("results", .arr [])]])])]

/-- The parse of `scenarioCFullJson`. -/
def scenarioCFullParsed : StreamingResponse :=
  { id := "c1", object := "chat.completion.chunk", created := 1, model := "m",
    choices := [{ index := 0,
                  delta := { content := some "hi", role := none, tool_calls := none },
                  logprobs := none, finish_reason := none, stop_reason := none }],
    usage := none,
    detections := some { input := none,
                         output := some [{ choice_index := 0, results := some [] }] },
    warnings := none }

/-- A non-streaming reply whose `detections` value is present but empty
(`"detections": \x7b\x7d`, i.e. neither `input` nor `output`). -/
def replyEmptyDetections : OrchestratorResponse :=
  { id := "r1",
    choices := [{ finish_reason := "length", index := 0,
                  message := { content := "hello", refusal := none,
                               role := "assistant", tool_calls := none, audio := none },
                  logprobs := none }],
    created := 1, model := "m", service_tier := none, system_fingerprint := none,
    object := none, usage := Json.null,
    detections := some { input := none, output := none }, warnings := none }

/-- A non-streaming reply with `detections = null` (the spec's Scenario B /
round-trip shape). -/
def replyNullDetections : OrchestratorResponse :=
  { id := "r2",
    choices := [{ finish_reason := "length", index := 0,
                  message := { content := "hello", refusal := none,
                               role := "assistant", tool_calls := none, audio := none },
                  logprobs := none }],
    created := 2, model := "m", service_tier := none, system_fingerprint := none,
    object := none, usage := Json.null, detections := none, warnings := none }

/-- A non-streaming reply carrying a non-empty `detections` value
(the spec's Scenario A shape). -/
def replyWithDetections : OrchestratorResponse :=
  { id := "r3",
    choices := [{ finish_reason := "length", index := 0,
                  message := { content := "the model text", refusal := none,
                               role := "assistant", tool_calls := none, audio := none },
                  logprobs := none }],
    created := 3, model := "m", service_tier := none, system_fingerprint := none,
    object := none, usage := Json.null,
    detections := some { input := some [{ message_index := 0, results := some [] }],
                         output := none },
    warnings := none }

/-- A streaming chunk with one choice and `detections = null`. -/
def chunkNullDetections : StreamingResponse :=
  { id := "c3", object := "chat.completion.chunk", created := 3, model := "m",
    choices := [{ index := 0,
                  delta := { content := some "hi", role := none, tool_calls := none },
                  logprobs := none, finish_reason := none, stop_reason := none }],
    usage := none, detections := none, warnings := none }

/-- A streaming chunk carrying `detections` but an empty `choices` sequence. -/
def chunkNoChoices : StreamingResponse :=
  { id := "c4", object := "chat.completion.chunk", created := 4, model := "m",
    choices := [], usage := none,
    detections := some { input := none,
                         output := some [{ choice_index := 0, results := some [] }] },
    warnings := none }

/-! ## Helper lemmas: detector resolution -/

/-- What one resolver step does to the input map at key `k`. -/
theorem resolveDetectorStep_input (dets : List String) (acc : OrchestratorDetector)
    (d : DetectorConfig) (k : String) :
    (resolveDetectorStep dets acc d).input k =
      if selectedInput dets d = true ∧ serverKey d = k
      then d.detector_params else acc.input k := by
  unfold resolveDetectorStep selectedInput serverKey mapInsert
  cases hp : d.detector_params with
  | none => simp [hp]
  | some p =>
    cases hc : dets.contains d.name with
    | false => simp [hc]
    | true =>
      cases hi : d.input with
      | false => cases ho : d.output <;> simp [hi, ho]
      | true =>
        by_cases hk : d.server.getD d.name = k
        · cases ho : d.output <;> simp [hi, ho, hk]
        · cases ho : d.output <;>
            simp [hi, ho, hk] <;>
            exact fun h => absurd h.symm hk

/-- What one resolver step does to the output map at key `k`. -/
theorem resolveDetectorStep_output (dets : List String) (acc : OrchestratorDetector)
    (d : DetectorConfig) (k : String) :
    (resolveDetectorStep dets acc d).output k =
      if selectedOutput dets d = true ∧ serverKey d = k
      then d.detector_params else acc.output k := by
  unfold resolveDetectorStep selectedOutput serverKey mapInsert
  cases hp : d.detector_params with
  | none => simp [hp]
  | some p =>
    cases hc : dets.contains d.name with
    | false => simp [hc]
    | true =>
      cases ho : d.output with
      | false => cases hi : d.input <;> simp [hi, ho]
      | true =>
        by_cases hk : d.server.getD d.name = k
        · cases hi : d.input <;> simp [hi, ho, hk]
        · cases hi : d.input <;>
            simp [hi, ho, hk] <;>
            exact fun h => absurd h.symm hk

/-- Folding over detectors none of which is selected for the input map at key
`k` leaves the input map unchanged there. -/
theorem resolve_foldl_input_skip (dets : List String) (k : String) :
    ∀ (cfg : List DetectorConfig) (acc : OrchestratorDetector),
      (∀ d ∈ cfg, ¬(selectedInput dets d = true ∧ serverKey d = k)) →
      (cfg.foldl (resolveDetectorStep dets) acc).input k = acc.input k := by
  intro cfg
  induction cfg with
  | nil => intro acc _; rfl
  | cons d rest ih =>
    intro acc h
    simp only [List.foldl_cons]
    rw [ih _ (fun e he => h e (List.mem_cons_of_mem _ he))]
    rw [resolveDetectorStep_input, if_neg (h d (List.mem_cons_self _ _))]

/-- Output-map version of `resolve_foldl_input_skip`. -/
theorem resolve_foldl_output_skip (dets : List String) (k : String) :
    ∀ (cfg : List DetectorConfig) (acc : OrchestratorDetector),
      (∀ d ∈ cfg, ¬(selectedOutput dets d = true ∧ serverKey d = k)) →
      (cfg.foldl (resolveDetectorStep dets) acc).output k = acc.output k := by
  intro cfg
  induction cfg with
  | nil => intro acc _; rfl
  | cons d rest ih =>
    intro acc h
    simp only [List.foldl_cons]
    rw [ih _ (fun e he => h e (List.mem_cons_of_mem _ he))]
    rw [resolveDetectorStep_output, if_neg (h d (List.mem_cons_self _ _))]

/-- A binding in the folded input map comes from a selected detector or from
the accumulator (no distinctness needed). -/
theorem resolve_foldl_input_some (dets : List String) (k : String) (v : Json) :
    ∀ (cfg : List DetectorConfig) (acc : OrchestratorDetector),
      (cfg.foldl (resolveDetectorStep dets) acc).input k = some v →
      (∃ d ∈ cfg, selectedInput dets d = true ∧ serverKey d = k
          ∧ d.detector_params = some v)
        ∨ acc.input k = some v := by
  intro cfg
  induction cfg with
  | nil => intro acc h; right; exact h
  | cons d rest ih =>
    intro acc h
    simp only [List.foldl_cons] at h
    rcases ih _ h with ⟨e, he, hsel⟩ | hacc
    · left; exact ⟨e, List.mem_cons_of_mem _ he, hsel⟩
    · rw [resolveDetectorStep_input] at hacc
      by_cases hd : selectedInput dets d = true ∧ serverKey d = k
      · rw [if_pos hd] at hacc
        left; exact ⟨d, List.mem_cons_self _ _, hd.1, hd.2, hacc⟩
      · rw [if_neg hd] at hacc
        right; exact hacc

/-- Output-map version of `resolve_foldl_input_some`. -/
theorem resolve_foldl_output_some (dets : List String) (k : String) (v : Json) :
    ∀ (cfg : List DetectorConfig) (acc : OrchestratorDetector),
      (cfg.foldl (resolveDetectorStep dets) acc).output k = some v →
      (∃ d ∈ cfg, selectedOutput dets d = true ∧ serverKey d = k
          ∧ d.detector_params = some v)
        ∨ acc.output k = some v := by
  intro cfg
  induction cfg with
  | nil => intro acc h; right; exact h
  | cons d rest ih =>
    intro acc h
    simp only [List.foldl_cons] at h
    rcases ih _ h with ⟨e, he, hsel⟩ | hacc
    · left; exact ⟨e, List.mem_cons_of_mem _ he, hsel⟩
    · rw [resolveDetectorStep_output] at hacc
      by_cases hd : selectedOutput dets d = true ∧ serverKey d = k
      · rw [if_pos hd] at hacc
        left; exact ⟨d, List.mem_cons_self _ _, hd.1, hd.2, hacc⟩
      · rw [if_neg hd] at hacc
        right; exact hacc

/-- Unpacking the head of `distinctServerKeys`: if the head is selected, no
selected member of the tail shares its server key. -/
theorem distinctServerKeys_head {sel : DetectorConfig → Bool} {d : DetectorConfig}
    {rest : List DetectorConfig}
    (h : distinctServerKeys sel (d :: rest) = true)
    (hd : sel d = true) :
    ∀ e ∈ rest, ¬(sel e = true ∧ serverKey e = serverKey d) := by
  unfold distinctServerKeys at h
  rw [Bool.and_eq_true] at h
  obtain ⟨h1, _⟩ := h
  rw [Bool.or_eq_true] at h1
  rcases h1 with h1 | h1
  · rw [Bool.not_eq_true'] at h1
    exact absurd hd (by simp [h1])
  · intro e he ⟨hsel, hkey⟩
    have h2 := List.all_eq_true.mp h1 e he
    rw [Bool.or_eq_true] at h2
    rcases h2 with h2 | h2
    · rw [Bool.not_eq_true'] at h2
      exact absurd hsel (by simp [h2])
    · exact absurd hkey (by simpa using h2)

/-- Tail of `distinctServerKeys`. -/
theorem distinctServerKeys_tail {sel : DetectorConfig → Bool} {d : DetectorConfig}
    {rest : List DetectorConfig}
    (h : distinctServerKeys sel (d :: rest) = true) :
    distinctServerKeys sel rest = true := by
  unfold distinctServerKeys at h
  rw [Bool.and_eq_true] at h
  exact h.2

/-- Under the distinctness invariant, a selected input detector's binding
survives the whole fold. -/
theorem resolve_foldl_input_mem (dets : List String) (k : String) (v : Json) :
    ∀ (cfg : List DetectorConfig) (acc : OrchestratorDetector),
      distinctServerKeys (selectedInput dets) cfg = true →
      ∀ d ∈ cfg, selectedInput dets d = true → serverKey d = k →
        d.detector_params = some v →
        (cfg.foldl (resolveDetectorStep dets) acc).input k = some v := by
  intro cfg
  induction cfg with
  | nil => intro acc _ d hd; cases hd
  | cons d0 rest ih =>
    intro acc hdist d hmem hsel hkey hv
    simp only [List.foldl_cons]
    rcases List.mem_cons.mp hmem with rfl | hmem'
    · have hall := distinctServerKeys_head hdist hsel
      rw [resolve_foldl_input_skip dets k rest _
          (fun e he hc => hall e he ⟨hc.1, hc.2.trans hkey.symm⟩)]
      rw [resolveDetectorStep_input, if_pos ⟨hsel, hkey⟩, hv]
    · exact ih _ (distinctServerKeys_tail hdist) d hmem' hsel hkey hv

/-- Output-map version of `resolve_foldl_input_mem`. -/
theorem resolve_foldl_output_mem (dets : List String) (k : String) (v : Json) :
    ∀ (cfg : List DetectorConfig) (acc : OrchestratorDetector),
      distinctServerKeys (selectedOutput dets) cfg = true →
      ∀ d ∈ cfg, selectedOutput dets d = true → serverKey d = k →
        d.detector_params = some v →
        (cfg.foldl (resolveDetectorStep dets) acc).output k = some v := by
  intro cfg
  induction cfg with
  | nil => intro acc _ d hd; cases hd
  | cons d0 rest ih =>
    intro acc hdist d hmem hsel hkey hv
    simp only [List.foldl_cons]
    rcases List.mem_cons.mp hmem with rfl | hmem'
    · have hall := distinctServerKeys_head hdist hsel
      rw [resolve_foldl_output_skip dets k rest _
          (fun e he hc => hall e he ⟨hc.1, hc.2.trans hkey.symm⟩)]
      rw [resolveDetectorStep_output, if_pos ⟨hsel, hkey⟩, hv]
    · exact ih _ (distinctServerKeys_tail hdist) d hmem' hsel hkey hv

/-! ## Helper lemmas: SSE extraction and header forwarding -/

/-- A list passing `charsStartWith p` is `p` followed by its remainder. -/
theorem charsStartWith_append :
    ∀ (p l : List Char), charsStartWith p l = true → l = p ++ l.drop p.length := by
  intro p
  induction p with
  | nil => intro l _; simp
  | cons c cs ih =>
    intro l h
    cases l with
    | nil => cases h
    | cons x xs =>
      unfold charsStartWith at h
      rw [Bool.and_eq_true] at h
      obtain ⟨h1, h2⟩ := h
      have hx : c = x := by simpa using h1
      subst hx
      simpa using ih xs h2

/-- For a `data: ` line, having payload `[DONE]` is the same as being the
sentinel line `data: [DONE]`. -/
theorem dataLine_done_iff (l : List Char)
    (h : charsStartWith "data: ".data l = true) :
    l.drop 6 = "[DONE]".data ↔ l = "data: [DONE]".data := by
  have hl := charsStartWith_append "data: ".data l h
  constructor
  · intro hd
    conv_lhs => rw [hl]
    rw [show ("data: ".data).length = 6 from rfl, hd]
    rfl
  · intro he
    rw [he]
    rfl

/-- Folding a guarded append produces the filtered map. -/
theorem foldl_guard_append {α β : Type} (r : α → Bool) (f : α → β) :
    ∀ (xs : List α) (acc : List β),
      xs.foldl (fun a x => if r x then a ++ [f x] else a) acc
        = acc ++ (xs.filter r).map f := by
  intro xs
  induction xs with
  | nil => intro acc; simp
  | cons x rest ih =>
    intro acc
    by_cases h : r x <;> simp [h, ih]

/-- The data-line collection loop is the filter/map of the spec's description. -/
theorem extractDataLines_eq (chunk : String) :
    extractDataLines chunk
      = ((rustLines chunk.data).filter
          (fun l => charsStartWith "data: ".data l && l != "data: [DONE]".data)).map
          (List.drop 6) := by
  unfold extractDataLines
  have hfun : (fun (data_lines : List (List Char)) (line : List Char) =>
      if charsStartWith "data: ".data line then
        let data := line.drop 6
        if data = "[DONE]".data then data_lines else data_lines ++ [data]
      else data_lines)
      = (fun a l =>
          if (charsStartWith "data: ".data l && l != "data: [DONE]".data)
          then a ++ [l.drop 6] else a) := by
    funext a l
    by_cases hs : charsStartWith "data: ".data l = true
    · by_cases hd : l.drop 6 = "[DONE]".data
      · have : l = "data: [DONE]".data := (dataLine_done_iff l hs).mp hd
        simp [hs, hd, this]
      · have : ¬ l = "data: [DONE]".data := fun he => hd ((dataLine_done_iff l hs).mpr he)
        simp [hs, hd, this]
    · simp [hs]
  rw [hfun, foldl_guard_append]
  simp

/-- `extractData` always renders the joined collected lines (the empty-list
branch coincides with the join of the empty list). -/
theorem extractData_eq_join (chunk : String) :
    extractData chunk = String.mk (joinNewline (extractDataLines chunk)) := by
  unfold extractData
  cases h : extractDataLines chunk with
  | nil => rfl
  | cons l rest => rfl

/-- One header-forwarding iteration appends the header iff it is an
`authorization` or `x-forwarded` header (the two source `if`s are mutually
exclusive: `"authorization"` does not start with `"x-forwarded"`). -/
theorem forwardHeaderStep_eq (req : List (String × String)) (h : String × String) :
    forwardHeaderStep req h = if isForwardedHeader h.1 then req ++ [h] else req := by
  unfold forwardHeaderStep isForwardedHeader
  by_cases ha : asciiLower h.1 == "authorization"
  · have he : asciiLower h.1 = "authorization" := by simpa using ha
    rw [he]
    simp
    decide
  · by_cases hx : charsStartWith "x-forwarded".data (asciiLower h.1).data <;>
      simp [ha, hx]

/-- The forwarded header set is exactly the filter by `isForwardedHeader`. -/
theorem forwardHeaders_eq_filter (headers : List (String × String)) :
    forwardHeaders headers = headers.filter (fun h => isForwardedHeader h.1) := by
  unfold forwardHeaders
  have hfun : forwardHeaderStep
      = (fun (a : List (String × String)) (x : String × String) =>
          if (fun (h : String × String) => isForwardedHeader h.1) x
          then a ++ [id x] else a) := by
    funext a x
    simpa using forwardHeaderStep_eq a x
  rw [hfun, foldl_guard_append]
  simp

/-! ## Claims -/

/-- Claim C1 (code bug): startup validation must reject a route with two
output detectors sharing a `server_key`, and the repository's own test
`test_validate_multiple_same_server_output_detectors` is `#[should_panic]` on
exactly `cfgDuplicateOutputServers` — but the source's duplicate-output check
(src/config.rs lines 96-101) is nested inside `if detector_cfg.input`, so
`validate_registered_detectors` collects no issue there and the process
starts.  The same configuration with the `input` flags set instead is
rejected, showing the asymmetry. -/
theorem C1_validate_accepts_duplicate_output_servers :
    validate_registered_detectors cfgDuplicateOutputServers = []
      ∧ validate_registered_detectors cfgDuplicateInputServers ≠ [] := by
  constructor
  · rfl
  · intro h
    have h' : [dupInputServerMsg "route1" "server-a",
               dupOutputServerMsg "route1" "server-a"] = ([] : List String) := h
    cases h'

/-- Claim C2 (counterexample): upstream status 2xx with body `\x7b\x7d` — a
valid JSON document that does not decode into the reply shape — does not
produce a client-visible error response: `orchestrator_post_request` hits
`.expect("unexpected json response from request")` and the process panics. -/
theorem C2_decode_failure_crashes_cex :
    OrchestratorResponse.fromJson (Json.obj []) = none
      ∧ orchestratorPostResult true (some (Json.obj []))
          = .crash "unexpected json response from request" :=
  ⟨rfl, rfl⟩

/-- Claim C2 (amended): on a 2xx status, a body that is not valid JSON is
returned as an error (surfaced to the client as a 500), while a body that is
valid JSON but does not decode into `OrchestratorResponse` causes a process
panic — not a client-visible error. -/
theorem C2_decode_failure_handling (body : Option Json) :
    (body = none →
      orchestratorPostResult true body = .err "body is not valid json")
    ∧ (∀ j, body = some j → OrchestratorResponse.fromJson j = none →
        orchestratorPostResult true body
          = .crash "unexpected json response from request")
    ∧ (∀ j resp, body = some j → OrchestratorResponse.fromJson j = some resp →
        orchestratorPostResult true body = .ok resp) := by
  refine ⟨?_, ?_, ?_⟩
  · intro h; subst h; rfl
  · intro j h hj; subst h
    show (match OrchestratorResponse.fromJson j with
          | some r => UpstreamResult.ok r
          | none => UpstreamResult.crash "unexpected json response from request")
        = UpstreamResult.crash "unexpected json response from request"
    rw [hj]
  · intro j resp h hj; subst h
    show (match OrchestratorResponse.fromJson j with
          | some r => UpstreamResult.ok r
          | none => UpstreamResult.crash "unexpected json response from request")
        = UpstreamResult.ok resp
    rw [hj]

/-- Witness for C2: the two decode-failure branches at concrete bodies. -/
theorem C2_decode_failure_handling_witness :
    orchestratorPostResult true none = .err "body is not valid json"
      ∧ orchestratorPostResult true (some (Json.arr []))
          = .crash "unexpected json response from request" :=
  ⟨(C2_decode_failure_handling none).1 rfl,
   (C2_decode_failure_handling (some (Json.arr []))).2.1 (Json.arr []) rfl rfl⟩

/-- Claim C3 (counterexample): `dInputV1` is selected for the input map (named
in the route, non-null params, input flag), yet the resolver does not map its
server key `s` to its params — a second selected input detector with the same
server key overwrites the binding, so the output does not "contain exactly"
the selected detectors. -/
theorem C3_resolver_collision_cex :
    selectedInput ["a", "b"] dInputV1 = true
    ∧ serverKey dInputV1 = "s"
    ∧ dInputV1.detector_params = some (Json.str "v1")
    ∧ ¬((get_orchestrator_detectors ["a", "b"] cfgColliding).input "s"
          = some (Json.str "v1")) := by
  refine ⟨rfl, rfl, rfl, ?_⟩
  intro h
  have h' : some (Json.str "v2") = some (Json.str "v1") := h
  simp at h'

/-- Claim C3 (amended): under the load-time invariant — no two detectors
selected for the same role share a `server_key` — the resolver's maps are
exactly as the claim describes: `input` binds `k` to `v` iff some detector
named in the route, with non-null params and the `input` flag, has server key
`k` and params `v`; similarly for `output`.  Detectors with null params are
never selected, hence skipped with no error. -/
theorem C3_resolver_exact (dets : List String) (cfg : List DetectorConfig)
    (hin : distinctServerKeys (selectedInput dets) cfg = true)
    (hout : distinctServerKeys (selectedOutput dets) cfg = true)
    (k : String) (v : Json) :
    ((get_orchestrator_detectors dets cfg).input k = some v ↔
      ∃ d ∈ cfg, selectedInput dets d = true ∧ serverKey d = k
        ∧ d.detector_params = some v)
    ∧ ((get_orchestrator_detectors dets cfg).output k = some v ↔
      ∃ d ∈ cfg, selectedOutput dets d = true ∧ serverKey d = k
        ∧ d.detector_params = some v) := by
  unfold get_orchestrator_detectors
  constructor
  · constructor
    · intro h
      rcases resolve_foldl_input_some dets k v cfg _ h with hex | hacc
      · exact hex
      · simp [emptyDetectorMap] at hacc
    · rintro ⟨d, hmem, hsel, hkey, hv⟩
      exact resolve_foldl_input_mem dets k v cfg _ hin d hmem hsel hkey hv
  · constructor
    · intro h
      rcases resolve_foldl_output_some dets k v cfg _ h with hex | hacc
      · exact hex
      · simp [emptyDetectorMap] at hacc
    · rintro ⟨d, hmem, hsel, hkey, hv⟩
      exact resolve_foldl_output_mem dets k v cfg _ hout d hmem hsel hkey hv

/-- Witness for C3: two detectors sharing a name but carrying distinct server
keys (Scenario E's shape) resolve without collision. -/
theorem C3_resolver_exact_witness :
    (get_orchestrator_detectors ["a"] cfgDistinctKeys).input "s1"
        = some (Json.str "v1")
    ∧ (get_orchestrator_detectors ["a"] cfgDistinctKeys).output "s2"
        = some (Json.str "v2") := by
  constructor
  · exact ((C3_resolver_exact ["a"] cfgDistinctKeys (by decide) (by decide)
      "s1" (Json.str "v1")).1).mpr
      ⟨{ name := "a", server := some "s1", input := true, output := false,
         detector_params := some (.str "v1") },
       List.Mem.head _, rfl, rfl, rfl⟩
  · exact ((C3_resolver_exact ["a"] cfgDistinctKeys (by decide) (by decide)
      "s2" (Json.str "v2")).2).mpr
      ⟨{ name := "a", server := some "s2", input := false, output := true,
         detector_params := some (.str "v2") },
       List.Mem.tail _ (List.Mem.head _), rfl, rfl, rfl⟩

/-- Claim C4 (confirmed): a non-streaming reply carrying a `detections` value,
on a route with a fallback message, has its whole `choices` sequence replaced
by the single synthesized choice with `finish_reason = "stop"`, `index = 0`,
`role = "assistant"` and the route's fallback message as content; no other
field of the reply is altered. -/
theorem C4_fallback_replaces_choices (resp : OrchestratorResponse)
    (d : Detections) (m : String) (h : resp.detections = some d) :
    applyNonStreamingFallback (some m) resp =
      { resp with choices :=
          [{ finish_reason := "stop", index := 0,
             message := { content := m, refusal := none, role := "assistant",
                          tool_calls := none, audio := none },
             logprobs := none }] } := by
  unfold applyNonStreamingFallback check_payload_detections GenerationMessage.new
  rw [h]

/-- Witness for C4: Scenario A's shape — a reply with an input detection on a
route with fallback message `blocked`. -/
theorem C4_fallback_replaces_choices_witness :
    applyNonStreamingFallback (some "blocked") replyWithDetections =
      { replyWithDetections with choices :=
          [{ finish_reason := "stop", index := 0,
             message := { content := "blocked", refusal := none,
                          role := "assistant", tool_calls := none, audio := none },
             logprobs := none }] } :=
  C4_fallback_replaces_choices replyWithDetections
    { input := some [{ message_index := 0, results := some [] }], output := none }
    "blocked" rfl

/-! ## Helper lemmas: fallback policy -/

/-- No fallback message: the non-streaming substitution is the identity. -/
theorem applyNonStreamingFallback_noneMsg (resp : OrchestratorResponse) :
    applyNonStreamingFallback none resp = resp := by
  unfold applyNonStreamingFallback check_payload_detections
  cases resp.detections <;> rfl

/-- No detections: the non-streaming substitution is the identity. -/
theorem applyNonStreamingFallback_det_none (f : Option String)
    (resp : OrchestratorResponse) (h : resp.detections = none) :
    applyNonStreamingFallback f resp = resp := by
  unfold applyNonStreamingFallback check_payload_detections
  rw [h]
  cases f <;> rfl

/-- Fallback message and detections both present: `choices` is replaced. -/
theorem applyNonStreamingFallback_det_some (m : String)
    (resp : OrchestratorResponse) (d : Detections) (h : resp.detections = some d) :
    applyNonStreamingFallback (some m) resp =
      { resp with choices :=
          [{ finish_reason := "stop", index := 0,
             message := GenerationMessage.new m, logprobs := none }] } := by
  unfold applyNonStreamingFallback check_payload_detections
  rw [h]

/-- No detections: the streaming substitution is the identity. -/
theorem applyStreamingFallback_det_none (f : Option String)
    (c : StreamingResponse) (h : c.detections = none) :
    applyStreamingFallback f c = c := by
  cases f with
  | none => rfl
  | some m =>
    unfold applyStreamingFallback
    simp [h]

/-- Fallback message and detections both present: the first choice is
rewritten (a no-op when `choices` is empty). -/
theorem applyStreamingFallback_det_some (m : String) (c : StreamingResponse)
    (h : c.detections.isSome = true) :
    applyStreamingFallback (some m) c =
      { c with choices := rewriteFirstChoice m c.choices } := by
  unfold applyStreamingFallback
  show (if c.detections.isSome = true
        then match c.choices with
          | [] => c
          | ch :: rest =>
            { c with choices :=
                { ch with delta := { content := some m, role := some "assistant",
                                     tool_calls := none },
                          finish_reason := some "stop" } :: rest }
        else c)
      = { c with choices := rewriteFirstChoice m c.choices }
  rw [if_pos h]
  cases hc : c.choices with
  | nil =>
    show c = { c with choices := rewriteFirstChoice m [] }
    rw [show rewriteFirstChoice m [] = ([] : List StreamingChoice) from rfl, ← hc]
  | cons ch rest =>
    rfl

/-- The spec's streaming rewrite is idempotent on choice lists. -/
theorem rewriteFirstChoice_idem (m : String) (cs : List StreamingChoice) :
    rewriteFirstChoice m (rewriteFirstChoice m cs) = rewriteFirstChoice m cs := by
  cases cs <;> rfl

/-- Claim C5 (counterexample): a non-streaming reply whose `detections` value
is present but *empty* (`input` and `output` both absent) does not pass
through unmodified on a route with a fallback message —
`check_payload_detections` tests only `Some(_)` and never inspects the
contents, so the fallback still replaces `choices`. -/
theorem C5_empty_detections_not_identity_cex :
    replyEmptyDetections.detections = some { input := none, output := none }
    ∧ applyNonStreamingFallback (some "blocked") replyEmptyDetections
        ≠ replyEmptyDetections := by
  refine ⟨rfl, ?_⟩
  intro h
  have hc : [({ finish_reason := "stop", index := 0,
                message := GenerationMessage.new "blocked", logprobs := none } :
                GenerationChoice)]
      = replyEmptyDetections.choices :=
    congrArg OrchestratorResponse.choices h
  simp [replyEmptyDetections, GenerationMessage.new] at hc

/-- Claim C5 (amended): the fallback policy is the identity whenever
`detections` is *absent* (`null`) or the route has no fallback message, for
both reply shapes; the amendment drops "or empty", since a present-but-empty
`detections` value still triggers the substitution. -/
theorem C5_fallback_identity (f : Option String) :
    (∀ resp : OrchestratorResponse, resp.detections = none ∨ f = none →
        applyNonStreamingFallback f resp = resp)
    ∧ (∀ c : StreamingResponse, c.detections = none ∨ f = none →
        applyStreamingFallback f c = c) := by
  constructor
  · intro resp h
    rcases h with h | h
    · exact applyNonStreamingFallback_det_none f resp h
    · subst h; exact applyNonStreamingFallback_noneMsg resp
  · intro c h
    rcases h with h | h
    · exact applyStreamingFallback_det_none f c h
    · subst h; rfl

/-- Witness for C5: Scenario B's shape (`detections = null`, fallback
configured) passes through, as does a chunk on a route with no fallback. -/
theorem C5_fallback_identity_witness :
    applyNonStreamingFallback (some "blocked") replyNullDetections
        = replyNullDetections
    ∧ applyStreamingFallback none chunkNullDetections = chunkNullDetections :=
  ⟨(C5_fallback_identity (some "blocked")).1 replyNullDetections (Or.inl rfl),
   (C5_fallback_identity none).2 chunkNullDetections (Or.inr rfl)⟩

/-- Claim C6 (counterexample): the Scenario C chunk exactly as the spec writes
it carries `detections`, but lacks the `id`/`object`/`created`/`model` fields
`StreamingResponse` requires, so it fails the shape check of
src/main.rs line 306 and is forwarded raw — not rewritten with the fallback
delta and `finish_reason = "stop"`. -/
theorem C6_scenario_c_not_rewritten_cex :
    StreamingResponse.fromJson scenarioCJson = none
    ∧ (scenarioCJson.getField "detections").isSome = true
    ∧ relayChunkEvent (StreamingResponse.fromJson scenarioCJson) scenarioCRaw
        (some "blocked")
        = some (.raw scenarioCRaw) :=
  ⟨rfl, rfl, rfl⟩

/-- Claim C6 (amended): for a chunk that *does* parse into the streaming reply
shape, carries `detections`, and is handled with a fallback message, the
emitted SSE event's data is the re-serialization of the chunk with
`choices[0].delta` replaced by the fallback delta and `choices[0].finish_reason`
set to `"stop"`, all other choices and fields unchanged; a parsed chunk with
no `detections` is re-serialized without rewriting.  Scenario C's chunk is
only rewritten once augmented with the required fields (see the witness). -/
theorem C6_streaming_rewrite (j : Json) (chunk : String)
    (r : StreamingResponse) (m : String)
    (hp : StreamingResponse.fromJson j = some r) :
    (r.detections.isSome = true →
      relayChunkEvent (StreamingResponse.fromJson j) chunk (some m)
        = some (.jsonData (StreamingResponse.toJson
            { r with choices := rewriteFirstChoice m r.choices })))
    ∧ (r.detections = none → ∀ f,
        relayChunkEvent (StreamingResponse.fromJson j) chunk f
          = some (.jsonData (StreamingResponse.toJson r))) := by
  rw [hp]
  constructor
  · intro hd
    unfold relayChunkEvent
    show some (EventData.jsonData (applyStreamingFallback (some m) r).toJson) = _
    rw [applyStreamingFallback_det_some m r hd]
  · intro hd f
    unfold relayChunkEvent
    show some (EventData.jsonData (applyStreamingFallback f r).toJson) = _
    rw [applyStreamingFallback_det_none f r hd]

/-- Witness for C6: Scenario C's chunk augmented with the required fields is
rewritten as the claim describes. -/
theorem C6_streaming_rewrite_witness :
    relayChunkEvent (StreamingResponse.fromJson scenarioCFullJson) "chunk"
        (some "blocked")
      = some (.jsonData (StreamingResponse.toJson
          { scenarioCFullParsed with
              choices := rewriteFirstChoice "blocked" scenarioCFullParsed.choices })) :=
  (C6_streaming_rewrite scenarioCFullJson "chunk" scenarioCFullParsed "blocked" rfl).1
    rfl

/-- Claim C7 (counterexample): a chunk with no `data:` lines yields the empty
candidate, and the relay still emits an SSE event for it (with empty data):
the source's per-chunk closure returns `Ok(Event...)` in every branch, so the
empty relay is forwarded, not dropped.  (`serde_json::from_str` fails on the
empty string, hence `parsed = none`.) -/
theorem C7_empty_candidate_emitted_cex :
    extractData "event: ping" = ""
    ∧ relayChunkEvent none "" (some "blocked") = some (.raw "") :=
  ⟨rfl, rfl⟩

/-- Claim C7 (amended): the candidate document for each upstream chunk is
exactly the newline-join of the payloads of its `data: ` lines, excluding
`data: [DONE]` sentinel lines; but an empty candidate (no `data:` lines) is
still emitted to the client as an event with empty data rather than dropped. -/
theorem C7_sse_extraction :
    (∀ chunk : String, extractData chunk = specCandidate chunk)
    ∧ (∀ f : Option String, relayChunkEvent none "" f = some (.raw "")) := by
  constructor
  · intro chunk
    rw [extractData_eq_join, extractDataLines_eq]
    rfl
  · intro f
    rfl

/-- Claim C8 (confirmed): the outbound orchestrator request carries exactly
the client headers whose name is case-insensitively `authorization` or
case-insensitively starts with `x-forwarded` (for both responders, whose
forwarding loops are identical); consequently two inbound requests with the
same payload that agree on those headers produce identical outbound
requests — no other client header crosses the boundary. -/
theorem C8_header_forwarding :
    (∀ (headers : List (String × String)) (n v : String),
        (n, v) ∈ forwardHeaders headers
          ↔ ((n, v) ∈ headers ∧ isForwardedHeader n = true))
    ∧ (∀ (url : String) (payload : Json) (h1 h2 : List (String × String)),
        forwardHeaders h1 = forwardHeaders h2 →
        buildOutboundRequest url payload h1 = buildOutboundRequest url payload h2) := by
  constructor
  · intro headers n v
    rw [forwardHeaders_eq_filter]
    simp [List.mem_filter]
  · intro url payload h1 h2 h
    unfold buildOutboundRequest
    rw [h]

/-- Witness for C8: dropping a `cookie` header or a `user-agent` header leaves
the outbound request identical. -/
theorem C8_header_forwarding_witness :
    buildOutboundRequest "u" Json.null
        [("Authorization", "Bearer t"), ("cookie", "c1")]
      = buildOutboundRequest "u" Json.null
        [("Authorization", "Bearer t"), ("user-agent", "z2")] :=
  C8_header_forwarding.2 "u" Json.null
    [("Authorization", "Bearer t"), ("cookie", "c1")]
    [("Authorization", "Bearer t"), ("user-agent", "z2")]
    (by decide)

/-- Claim C9 (confirmed): the fallback policy is idempotent for both reply
shapes and any optional fallback message — the substituted reply keeps the
original `detections` field, so the second application re-triggers but
reproduces the same choices. -/
theorem C9_fallback_idempotent (f : Option String)
    (resp : OrchestratorResponse) (c : StreamingResponse) :
    applyNonStreamingFallback f (applyNonStreamingFallback f resp)
        = applyNonStreamingFallback f resp
    ∧ applyStreamingFallback f (applyStreamingFallback f c)
        = applyStreamingFallback f c := by
  constructor
  · cases f with
    | none => rw [applyNonStreamingFallback_noneMsg, applyNonStreamingFallback_noneMsg]
    | some m =>
      cases hd : resp.detections with
      | none =>
        rw [applyNonStreamingFallback_det_none _ _ hd,
            applyNonStreamingFallback_det_none _ _ hd]
      | some d =>
        rw [applyNonStreamingFallback_det_some m resp d hd]
        exact applyNonStreamingFallback_det_some m _ d hd
  · cases f with
    | none => rfl
    | some m =>
      cases hd : c.detections with
      | none =>
        rw [applyStreamingFallback_det_none _ _ hd,
            applyStreamingFallback_det_none _ _ hd]
      | some d =>
        have hs : c.detections.isSome = true := by rw [hd]; rfl
        rw [applyStreamingFallback_det_some m c hs]
        have h2 := applyStreamingFallback_det_some m
          { c with choices := rewriteFirstChoice m c.choices } hs
        rw [h2]
        simp [rewriteFirstChoice_idem]

/-- Claim C10 (confirmed): a parsed streaming chunk with an empty `choices`
sequence is never rewritten — the `choices[0]` accesses are guarded by the
`len() > 0` check — and the relay emits its re-serialization without error,
for any fallback message and any `detections` value. -/
theorem C10_empty_choices_guard (r : StreamingResponse) (f : Option String)
    (chunk : String) (h : r.choices = []) :
    applyStreamingFallback f r = r
    ∧ relayChunkEvent (some r) chunk f
        = some (.jsonData (StreamingResponse.toJson r)) := by
  have h1 : applyStreamingFallback f r = r := by
    cases f with
    | none => rfl
    | some m =>
      cases hd : r.detections with
      | none => exact applyStreamingFallback_det_none _ _ hd
      | some d =>
        have hs : r.detections.isSome = true := by rw [hd]; rfl
        rw [applyStreamingFallback_det_some m r hs, h]
        rw [show rewriteFirstChoice m [] = ([] : List StreamingChoice) from rfl, ← h]
  refine ⟨h1, ?_⟩
  unfold relayChunkEvent
  show some (EventData.jsonData (applyStreamingFallback f r).toJson) = _
  rw [h1]

/-- Witness for C10: a chunk carrying detections, a fallback message, and no
choices passes through to the serialized event unmodified. -/
theorem C10_empty_choices_guard_witness :
    applyStreamingFallback (some "blocked") chunkNoChoices = chunkNoChoices
    ∧ relayChunkEvent (some chunkNoChoices) "chunk" (some "blocked")
        = some (.jsonData (StreamingResponse.toJson chunkNoChoices)) :=
  C10_empty_choices_guard chunkNoChoices (some "blocked") "chunk" rfl
